import Mathlib

/-!
Verification of the DVSPortal client (`dvsportal/dvsportal.py`).

The client is asynchronous Python built on `aiohttp`.  We shallowly embed it:
JSON values become an inductive type, the mutable `DVSPortal` object becomes a
record threaded explicitly through each operation, the HTTP transport becomes a
function from the request the client builds to the transport's outcome, and
Python exceptions become an `Except` error type.  Every operation additionally
returns the list of wire requests it issued, so that claims about which
requests are (not) sent can be stated.
-/

/-- A JSON value, as produced by `response.json()` / consumed by `json=` bodies. -/
inductive Json where
  | null : Json
  | bool (b : Bool) : Json
  | num (n : Int) : Json
  | str (s : String) : Json
  | arr (elems : List Json) : Json
  | obj (fields : List (String × Json)) : Json

/-- Python `d[k]` on a JSON value: key lookup when it is a dict, otherwise the
`KeyError`/`TypeError` is modelled as `none`. Parsed JSON dicts have unique keys. -/
def Json.get : Json → String → Option Json
  | .obj fields, k => (fields.find? (fun p => p.1 = k)).map (·.2)
  | _, _ => none

/-- Python `list(x)` / iteration: the elements when `x` is a JSON array,
otherwise (`TypeError`) `none`. -/
def Json.asList : Json → Option (List Json)
  | .arr elems => some elems
  | _ => none

/-- The string payload when the value is a JSON string, otherwise `none`
(Python would raise `TypeError` where a `str` is required). -/
def Json.asStr : Json → Option String
  | .str s => some s
  | _ => none

/-- The check `"ErrorMessage" in response_json` from `_request`.  The API
returns JSON objects, for which Python dict membership is key membership; on a
non-dict body Python's `in` behaves differently (element / substring test, or
`TypeError`), so theorems about this check restrict to object bodies. -/
def Json.hasErrorMessage : Json → Bool
  | .obj fields => fields.any (fun p => p.1 = "ErrorMessage")
  | _ => false

/-- Whether the parsed body is a JSON object (a Python dict). -/
def Json.isObj : Json → Bool
  | .obj _ => true
  | _ => false

/-- Insertion into a Python dict built by a comprehension: a later binding for
an existing key overwrites in place, a fresh key is appended. -/
def dictInsert (d : List (String × Json)) (k : String) (v : Json) :
    List (String × Json) :=
  if d.any (fun p => p.1 = k) then
    d.map (fun p => if p.1 = k then (k, v) else p)
  else
    d ++ [(k, v)]

/-- The dict produced by a Python dict comprehension over the given
key/value pairs, in order. -/
def dictOfPairs (pairs : List (String × Json)) : List (String × Json) :=
  pairs.foldl (fun d p => dictInsert d p.1 p.2) []

/-- `{**default_headers, **headers}`: keys of `extra` override keys of `base`;
remaining `base` entries keep their relative order, then `extra`'s entries. -/
def mergeHeaders (base extra : List (String × String)) : List (String × String) :=
  base.filter (fun p => ¬ extra.any (fun q => q.1 = p.1)) ++ extra

/-- Lookup of a header value by name. -/
def headerValue (headers : List (String × String)) (k : String) : Option String :=
  (headers.find? (fun p => p.1 = k)).map (·.2)

/-- Python `s.startswith(pre)`: `pre` is a prefix of `s`. -/
def pyStartsWith (s pre : String) : Bool :=
  pre.data.isPrefixOf s.data

/-! ### UTF-8 and base64, for `str.encode("utf-8")` and `base64.b64encode` -/

/-- UTF-8 encoding of a single Unicode code point, as a list of byte values. -/
def utf8Bytes (n : Nat) : List Nat :=
  if n < 0x80 then [n]
  else if n < 0x800 then
    [0xC0 + n / 0x40, 0x80 + n % 0x40]
  else if n < 0x10000 then
    [0xE0 + n / 0x1000, 0x80 + (n / 0x40) % 0x40, 0x80 + n % 0x40]
  else
    [0xF0 + n / 0x40000, 0x80 + (n / 0x1000) % 0x40, 0x80 + (n / 0x40) % 0x40,
      0x80 + n % 0x40]

/-- `s.encode("utf-8")` as a list of byte values. -/
def strUtf8 (s : String) : List Nat :=
  (s.data.map (fun c => utf8Bytes c.toNat)).flatten

/-- The standard base64 alphabet, indexed 0–63. -/
def b64Alphabet : List Char :=
  "ABCDEFGHIJKLMNOPQRSTUVWXYZabcdefghijklmnopqrstuvwxyz0123456789+/".data

/-- The base64 digit for a 6-bit value. -/
def b64Digit (n : Nat) : Char := b64Alphabet.getD n 'A'

/-- `base64.b64encode` on a byte sequence: groups of three bytes become four
digits; a final group of one or two bytes is padded with `=`. -/
def b64Encode : List Nat → List Char
  | [] => []
  | [a] =>
      [b64Digit (a / 4), b64Digit (a % 4 * 16), '=', '=']
  | [a, b] =>
      [b64Digit (a / 4), b64Digit (a % 4 * 16 + b / 16), b64Digit (b % 16 * 4), '=']
  | a :: b :: c :: rest =>
      b64Digit (a / 4) :: b64Digit (a % 4 * 16 + b / 16) ::
        b64Digit (b % 16 * 4 + c / 64) :: b64Digit (c % 64) :: b64Encode rest

/-- `str(base64.b64encode(t.encode("utf-8")), "utf-8")`: the base64 encoding of
the UTF-8 bytes of `t`, as a string (base64 output is ASCII). -/
def b64OfString (t : String) : String :=
  String.mk (b64Encode (strUtf8 t))

/-! ### The plate-normalization regex `re.sub('[^a-zA-Z\d]', '', s)`

Python 3 compiles `str` patterns with Unicode semantics: `\d` matches any
character of Unicode general category Nd (decimal digit number), not only
ASCII `0-9`.  We embed the Nd category as its code-point ranges. -/

/-- Code-point ranges of Unicode general category Nd (decimal digits), the
characters matched by Python's `\d` on `str` patterns. -/
def ndRanges : List (Nat × Nat) :=
  [(0x30, 0x39), (0x660, 0x669), (0x6F0, 0x6F9), (0x7C0, 0x7C9),
   (0x966, 0x96F), (0x9E6, 0x9EF), (0xA66, 0xA6F), (0xAE6, 0xAEF),
   (0xB66, 0xB6F), (0xBE6, 0xBEF), (0xC66, 0xC6F), (0xCE6, 0xCEF),
   (0xD66, 0xD6F), (0xDE6, 0xDEF), (0xE50, 0xE59), (0xED0, 0xED9),
   (0xF20, 0xF29), (0x1040, 0x1049), (0x1090, 0x1099), (0x17E0, 0x17E9),
   (0x1810, 0x1819), (0x1946, 0x194F), (0x19D0, 0x19D9), (0x1A80, 0x1A89),
   (0x1A90, 0x1A99), (0x1B50, 0x1B59), (0x1BB0, 0x1BB9), (0x1C40, 0x1C49),
   (0x1C50, 0x1C59), (0xA620, 0xA629), (0xA8D0, 0xA8D9), (0xA900, 0xA909),
   (0xA9D0, 0xA9D9), (0xA9F0, 0xA9F9), (0xAA50, 0xAA59), (0xABF0, 0xABF9),
   (0xFF10, 0xFF19), (0x104A0, 0x104A9), (0x10D30, 0x10D39),
   (0x11066, 0x1106F), (0x110F0, 0x110F9), (0x11136, 0x1113F),
   (0x111D0, 0x111D9), (0x112F0, 0x112F9), (0x11450, 0x11459),
   (0x114D0, 0x114D9), (0x11650, 0x11659), (0x116C0, 0x116C9),
   (0x11730, 0x11739), (0x118E0, 0x118E9), (0x11950, 0x11959),
   (0x11C50, 0x11C59), (0x11D50, 0x11D59), (0x11DA0, 0x11DA9),
   (0x16A60, 0x16A69), (0x16B50, 0x16B59), (0x1D7CE, 0x1D7FF),
   (0x1E140, 0x1E149), (0x1E2F0, 0x1E2F9), (0x1E950, 0x1E959)]

/-- Python's `\d` on a single character: membership in Unicode category Nd. -/
def isPyDigit (c : Char) : Bool :=
  ndRanges.any (fun r => r.1 ≤ c.toNat ∧ c.toNat ≤ r.2)

/-- The regex classes `a-z` and `A-Z`: an ASCII letter, by code point. -/
def isAsciiLetter (c : Char) : Bool :=
  (97 ≤ c.toNat ∧ c.toNat ≤ 122) ∨ (65 ≤ c.toNat ∧ c.toNat ≤ 90)

/-- `re.sub('[^a-zA-Z\d]', '', s)` from `update`: delete every character that
is neither an ASCII letter nor a `\d` digit, i.e. keep exactly those. -/
def reSubNonAlnum (s : String) : String :=
  String.mk (s.data.filter (fun c => isAsciiLetter c || isPyDigit c))

/-- Stated from the spec's words, for comparison with `reSubNonAlnum`: the
input with every character outside `[A-Za-z0-9]` removed. -/
def asciiAlnumStrip (s : String) : String :=
  String.mk (s.data.filter
    (fun c => isAsciiLetter c || (48 ≤ c.toNat ∧ c.toNat ≤ 57)))

/-! ### Transport, requests and errors -/

/-- The wire request the client hands to `self._session.request`: the `uri`
argument (joined onto the fixed API base URL), the HTTP method, the `json=`
body and the merged headers. -/
structure Request where
  uri : String
  method : String
  json : Json
  headers : List (String × String)

/-- An HTTP response as the client observes it: status code, `Content-Type`
header value, `text()` body, and the `json()` parse of the body (used only on
the JSON branch). -/
structure HttpResponse where
  status : Nat
  contentType : String
  text : String
  json : Json

/-- What the transport layer does with a request: time out, fail at the
socket/client level, or deliver a response. -/
inductive TransportResult where
  | timeout : TransportResult
  | clientError : TransportResult
  | response (r : HttpResponse) : TransportResult

/-- The environment: how the server/transport answers each request the client
builds. -/
def Transport := Request → TransportResult

/-- The errors an operation can surface: `DVSPortalConnectionError`,
`DVSPortalError (status, payload)`, or an uncaught Python exception
(`KeyError`, `AttributeError`, `TypeError`) from dynamic field access. -/
inductive DVSError where
  | connection (message : String) : DVSError
  | api (status : Nat) (payload : Json) : DVSError
  | pyError (message : String) : DVSError

/-! ### The data model produced by `update` -/

/-- One normalized reservation record built by `update` from
`permit["ActiveReservations"]`. -/
structure Reservation where
  id : Json
  valid_from : Json
  valid_until : Json
  license_plate : Json

/-- One normalized permit record built by `update` from a `PermitMedias`
entry.  `license_plates` is the dict keyed by the normalized plate string. -/
structure Permit where
  type_id : Json
  code : Json
  zone_code : Json
  license_plates : List (String × Json)
  reservations : List Reservation

/-! ### Session and client state -/

/-- The aiohttp `ClientSession`, reduced to what the claims observe: whether it
has been closed, and how many times it was actually released.
`Session.close` models `aiohttp.ClientSession.close()`, which is idempotent:
closing an already-closed session is a no-op, so `releases` counts real
releases of the underlying connector. -/
structure Session where
  closed : Bool
  releases : Nat

/-- `await session.close()` (aiohttp): marks the session closed; the release
happens only on the transition from open to closed. -/
def Session.close (s : Session) : Session :=
  { closed := true, releases := s.releases + (if s.closed then 0 else 1) }

/-- A freshly created `aiohttp.ClientSession`. -/
def Session.fresh : Session := { closed := false, releases := 0 }

/-- Modelled from the spec: the package version string `__version__` (its
defining module is not part of the sources; only the `<product>/<version>`
User-Agent shape matters, never the value). -/
def dvsportalVersion : String := "0"

/-- The mutable state of a `DVSPortal` instance.  `_token` holds the cached
token (`None` initially); `_permits` is `none` while the attribute has never
been assigned — `__init__` does not create it, only `update` does, so reading
it before any `update` is an `AttributeError`. -/
structure DVSPortal where
  api_host : String
  identifier : String
  password : String
  request_timeout : Nat
  user_agent : String
  tokenVal : Option Json
  permitsVal : Option (List Permit)
  close_session : Bool
  session : Session

/-- `DVSPortal.__init__`: stores credentials; if no session is supplied it
creates one and takes responsibility for closing it (`_close_session = True`),
otherwise the caller keeps ownership; defaults the user agent; the token cache
starts empty and the `_permits` attribute does not exist yet. -/
def DVSPortal.init (api_host identifier password : String)
    (request_timeout : Nat := 10) (session : Option Session := none)
    (user_agent : Option String := none) : DVSPortal :=
  { api_host := api_host
    identifier := identifier
    password := password
    request_timeout := request_timeout
    user_agent := user_agent.getD ("PythonDVSPortal/" ++ dvsportalVersion)
    tokenVal := none
    permitsVal := none
    close_session := session.isNone
    session := session.getD Session.fresh }

/-! ### `_request` -/

/-- `DVSPortal._request(uri, method="POST", json={}, headers={})`.  Builds the
wire request (default User-Agent header merged with the caller's headers,
caller winning on collision), sends it, and classifies the outcome:
transport failures become connection errors; a non-JSON `Content-Type` becomes
`DVSPortalError(status, {"message": text})`; a JSON response whose status
class is 4xx/5xx or whose body carries `ErrorMessage` becomes
`DVSPortalError(status, body)`; otherwise the parsed body is returned.
Also returns the single request it issued. -/
def DVSPortal._request (c : DVSPortal) (transport : Transport) (uri : String)
    (method : String := "POST") (json : Json := Json.obj [])
    (headers : List (String × String) := []) :
    Except DVSError Json × List Request :=
  let req : Request :=
    { uri := uri, method := method, json := json,
      headers := mergeHeaders [("User-Agent", c.user_agent)] headers }
  match transport req with
  | .timeout =>
      (.error (.connection "Timeout occurred while connecting to DVSPortal API."),
        [req])
  | .clientError =>
      (.error (.connection "Error occurred while communicating with DVSPortal."),
        [req])
  | .response r =>
      if ¬ pyStartsWith r.contentType "application/json" then
        (.error (.api r.status (Json.obj [("message", Json.str r.text)])), [req])
      else if [4, 5].contains (r.status / 100) || r.json.hasErrorMessage then
        (.error (.api r.status r.json), [req])
      else
        (.ok r.json, [req])

/-! ### `token` and `authorization_header` -/

/-- The JSON body the login request carries. -/
def loginBody (c : DVSPortal) : Json :=
  Json.obj [("identifier", Json.str c.identifier),
            ("loginMethod", Json.str "Pas"),
            ("password", Json.str c.password),
            ("permitMediaTypeID", Json.num 1)]

/-- `DVSPortal.token()`: return the cached token if any; otherwise perform the
login request, cache `response["Token"]` and return it.  On a request failure
nothing is cached. -/
def DVSPortal.token (c : DVSPortal) (transport : Transport) :
    Except DVSError Json × DVSPortal × List Request :=
  match c.tokenVal with
  | some t => (.ok t, c, [])
  | none =>
      let pr := c._request transport "login" "POST" (loginBody c) []
      match pr.1 with
      | .error e => (.error e, c, pr.2)
      | .ok response =>
          match response.get "Token" with
          | none => (.error (.pyError "KeyError: Token"), c, pr.2)
          | some t => (.ok t, { c with tokenVal := some t }, pr.2)

/-- The value of the Authorization header for token `t`:
`"Token " + str(base64.b64encode(t.encode("utf-8")), "utf-8")`. -/
def authHeaderValue (t : String) : String := "Token " ++ b64OfString t

/-- `DVSPortal.authorization_header()`: ensure a token (via `token()`), then
derive the Authorization header from the cached token.  A cached token that is
not a string would fail at `.encode` (`AttributeError`). -/
def DVSPortal.authorization_header (c : DVSPortal) (transport : Transport) :
    Except DVSError (List (String × String)) × DVSPortal × List Request :=
  let tr := c.token transport
  match tr.1 with
  | .error e => (.error e, tr.2.1, tr.2.2)
  | .ok _ =>
      match tr.2.1.tokenVal with
      | some (.str t) => (.ok [("Authorization", authHeaderValue t)], tr.2.1, tr.2.2)
      | _ => (.error (.pyError "AttributeError: encode"), tr.2.1, tr.2.2)

/-! ### `update` and its normalization of the `login/getbase` response -/

/-- One entry of the reservations list built by `update` from an
`ActiveReservations` element; `none` when a key is missing or a non-dict is
indexed (Python `KeyError`/`TypeError`). -/
def extractReservation (reservation : Json) : Option Reservation := do
  let id ← reservation.get "ReservationID"
  let vf ← reservation.get "ValidFrom"
  let vu ← reservation.get "ValidUntil"
  let lpObj ← reservation.get "LicensePlate"
  let lp ← lpObj.get "Value"
  pure { id := id, valid_from := vf, valid_until := vu, license_plate := lp }

/-- One key/value pair of the `license_plates` dict built by `update`: the
normalized `Value` maps to `Name`.  `Value` must be a string for `re.sub`. -/
def extractLicensePlate (license_plate : Json) : Option (String × Json) := do
  let v ← license_plate.get "Value"
  let s ← v.asStr
  let n ← license_plate.get "Name"
  pure (reSubNonAlnum s, n)

/-- The normalized Permit `update` builds from one `PermitMedias` entry. -/
def extractPermit (permit : Json) : Option Permit := do
  let tid ← permit.get "TypeID"
  let code ← permit.get "Code"
  let zc ← permit.get "ZoneCode"
  let lpsJ ← permit.get "LicensePlates"
  let lps ← lpsJ.asList
  let pairs ← lps.mapM extractLicensePlate
  let arsJ ← permit.get "ActiveReservations"
  let ars ← arsJ.asList
  let rs ← ars.mapM extractReservation
  pure { type_id := tid, code := code, zone_code := zc,
         license_plates := dictOfPairs pairs, reservations := rs }

/-- The whole normalization `update` applies to the `login/getbase` response
body: flatten `Permits[].PermitMedias[]` into one sequence, then map each
entry to a normalized Permit. -/
def normalizeResponse (response : Json) : Option (List Permit) := do
  let permitsJ ← response.get "Permits"
  let sublists ← permitsJ.asList
  let medias ← sublists.mapM (fun sublist => do
    let pmJ ← sublist.get "PermitMedias"
    pmJ.asList)
  medias.flatten.mapM extractPermit

/-- `DVSPortal.update()`: ensure a token, derive the authorization header,
`POST login/getbase` with it (and the default empty `json={}` body), normalize
the response and overwrite `self._permits` with the result.  On any failure the
snapshot is left untouched. -/
def DVSPortal.update (c : DVSPortal) (transport : Transport) :
    Except DVSError Unit × DVSPortal × List Request :=
  let tr := c.token transport
  match tr.1 with
  | .error e => (.error e, tr.2.1, tr.2.2)
  | .ok _ =>
      let ar := tr.2.1.authorization_header transport
      match ar.1 with
      | .error e => (.error e, ar.2.1, tr.2.2 ++ ar.2.2)
      | .ok authorization_header =>
          let rr := ar.2.1._request transport "login/getbase" "POST"
            (Json.obj []) authorization_header
          match rr.1 with
          | .error e => (.error e, ar.2.1, tr.2.2 ++ ar.2.2 ++ rr.2)
          | .ok response =>
              match normalizeResponse response with
              | none =>
                  (.error (.pyError "KeyError/TypeError in update"), ar.2.1,
                    tr.2.2 ++ ar.2.2 ++ rr.2)
              | some ps =>
                  (.ok (), { ar.2.1 with permitsVal := some ps },
                    tr.2.2 ++ ar.2.2 ++ rr.2)

/-! ### Reservation commands, `permits` and `close` -/

/-- `DVSPortal.end_reservation(type_id, code, reservation_id)`: authorize,
then `POST reservation/end`; the raw `_request` outcome is returned. -/
def DVSPortal.end_reservation (c : DVSPortal) (transport : Transport)
    (type_id : Json := Json.null) (code : Json := Json.null)
    (reservation_id : Json := Json.null) :
    Except DVSError Json × DVSPortal × List Request :=
  let ar := c.authorization_header transport
  match ar.1 with
  | .error e => (.error e, ar.2.1, ar.2.2)
  | .ok authorization_header =>
      let rr := ar.2.1._request transport "reservation/end" "POST"
        (Json.obj [("ReservationID", reservation_id),
                   ("permitMediaTypeID", type_id),
                   ("permitMediaCode", code)]) authorization_header
      (rr.1, ar.2.1, ar.2.2 ++ rr.2)

/-- `DVSPortal.create_reservation(...)`: authorize, then `POST
reservation/create` with `DateFrom` equal to `datetime.now().isoformat()` —
the wall-clock string `now` is an input of the model — and the raw `_request`
outcome is returned. -/
def DVSPortal.create_reservation (c : DVSPortal) (transport : Transport)
    (now : String) (license_plate_value : Json := Json.null)
    (license_plate_name : Json := Json.null) (type_id : Json := Json.null)
    (code : Json := Json.null) :
    Except DVSError Json × DVSPortal × List Request :=
  let ar := c.authorization_header transport
  match ar.1 with
  | .error e => (.error e, ar.2.1, ar.2.2)
  | .ok authorization_header =>
      let rr := ar.2.1._request transport "reservation/create" "POST"
        (Json.obj [("DateFrom", Json.str now),
                   ("LicensePlate",
                     Json.obj [("Value", license_plate_value),
                               ("Name", license_plate_name)]),
                   ("permitMediaTypeID", type_id),
                   ("permitMediaCode", code)]) authorization_header
      (rr.1, ar.2.1, ar.2.2 ++ rr.2)

/-- `DVSPortal.permits()`: return `self._permits`.  The attribute exists only
after a successful `update`, so before that the read raises
`AttributeError`; no request is ever issued. -/
def DVSPortal.permits (c : DVSPortal) :
    Except DVSError (List Permit) × List Request :=
  match c.permitsVal with
  | none => (.error (.pyError "AttributeError: _permits"), [])
  | some ps => (.ok ps, [])

/-- `DVSPortal.close()`: `if self._close_session: await self._session.close()`. -/
def DVSPortal.close (c : DVSPortal) : DVSPortal :=
  if c.close_session then { c with session := c.session.close } else c

/-- The wire request `token()` issues when no token is cached. -/
def loginRequest (c : DVSPortal) : Request :=
  { uri := "login", method := "POST", json := loginBody c,
    headers := mergeHeaders [("User-Agent", c.user_agent)] [] }

/-- The wire request `update()` issues for the state fetch, given the cached
token string `t`. -/
def getbaseRequest (c : DVSPortal) (t : String) : Request :=
  { uri := "login/getbase", method := "POST", json := Json.obj [],
    headers := mergeHeaders [("User-Agent", c.user_agent)]
      [("Authorization", authHeaderValue t)] }

/-- The `login/getbase` body of the spec's end-to-end example: one permit
with one permit media, plate `AB-12-CD` named `Car`. -/
def exampleGetbase : Json :=
  Json.obj [("Permits", Json.arr [Json.obj [("PermitMedias", Json.arr
    [Json.obj [("Code", Json.str "C1"), ("ZoneCode", Json.str "Z1"),
      ("TypeID", Json.num 2),
      ("LicensePlates", Json.arr [Json.obj [("Value", Json.str "AB-12-CD"),
        ("Name", Json.str "Car")]]),
      ("ActiveReservations", Json.arr [])]])]])]

/-! ### Theorems -/

set_option maxRecDepth 4000

/-- C2: for every response whose Content-Type does not start with
`application/json`, `_request` fails with `DVSPortalError` carrying the HTTP
status and `{"message": <raw body text>}` — whatever the status code and
whatever the body would parse to, since the Content-Type test comes first. -/
theorem request_non_json_error (c : DVSPortal) (r : HttpResponse)
    (uri method : String) (body : Json) (headers : List (String × String))
    (h : pyStartsWith r.contentType "application/json" = false) :
    (c._request (fun _ => .response r) uri method body headers).1 =
      .error (.api r.status (Json.obj [("message", Json.str r.text)])) := by
  simp [DVSPortal._request, h]

theorem request_non_json_error_witness :
    pyStartsWith "text/html" "application/json" = false ∧
    ((DVSPortal.init "host" "id" "pw")._request
        (fun _ => .response ⟨200, "text/html", "Gateway maintenance", Json.null⟩)
        "login").1 =
      .error (.api 200 (Json.obj [("message", Json.str "Gateway maintenance")])) :=
  ⟨by decide,
    request_non_json_error (DVSPortal.init "host" "id" "pw")
      ⟨200, "text/html", "Gateway maintenance", Json.null⟩ "login" "POST"
      (Json.obj []) [] (by decide)⟩

/-- C1: for a response with JSON Content-Type and an object body, `_request`
fails with `DVSPortalError` carrying the status and the full parsed body
exactly when the status class is 4xx/5xx or the body has an `ErrorMessage`
field — a status-200 body with `ErrorMessage` therefore raises — and
otherwise returns the parsed body. -/
theorem request_json_error_iff (c : DVSPortal) (r : HttpResponse)
    (uri method : String) (body : Json) (headers : List (String × String))
    (hct : pyStartsWith r.contentType "application/json" = true)
    (_hobj : r.json.isObj = true) :
    ((c._request (fun _ => .response r) uri method body headers).1 =
        .error (.api r.status r.json) ↔
      ((400 ≤ r.status ∧ r.status ≤ 599) ∨ r.json.hasErrorMessage = true)) ∧
    (¬ ((400 ≤ r.status ∧ r.status ≤ 599) ∨ r.json.hasErrorMessage = true) →
      (c._request (fun _ => .response r) uri method body headers).1 =
        .ok r.json) := by
  have hiff : ((r.status / 100 = 4 ∨ r.status / 100 = 5) ∨ r.json.hasErrorMessage = true) ↔
      ((400 ≤ r.status ∧ r.status ≤ 599) ∨ r.json.hasErrorMessage = true) := by
    constructor
    · rintro (h | h)
      · left; omega
      · right; exact h
    · rintro (h | h)
      · left; omega
      · right; exact h
  by_cases hP : (r.status / 100 = 4 ∨ r.status / 100 = 5) ∨ r.json.hasErrorMessage = true
  · have hres : (c._request (fun _ => .response r) uri method body headers).1 =
        .error (.api r.status r.json) := by
      simp [DVSPortal._request, hct, hP]
    exact ⟨⟨fun _ => hiff.mp hP, fun _ => hres⟩, fun hn => absurd (hiff.mp hP) hn⟩
  · have hres : (c._request (fun _ => .response r) uri method body headers).1 =
        .ok r.json := by
      simp [DVSPortal._request, hct, hP]
    refine ⟨⟨fun he => ?_, fun hs => absurd (hiff.mpr hs) hP⟩, fun _ => hres⟩
    rw [hres] at he
    simp at he

theorem request_json_error_iff_witness :
    pyStartsWith "application/json" "application/json" = true ∧
    (Json.obj [("ErrorMessage", Json.str "wrong password")]).isObj = true ∧
    ((DVSPortal.init "host" "id" "pw")._request
        (fun _ => .response ⟨200, "application/json", "",
          Json.obj [("ErrorMessage", Json.str "wrong password")]⟩) "login").1 =
      .error (.api 200 (Json.obj [("ErrorMessage", Json.str "wrong password")])) :=
  ⟨by decide, by decide,
    ((request_json_error_iff (DVSPortal.init "host" "id" "pw")
        ⟨200, "application/json", "",
          Json.obj [("ErrorMessage", Json.str "wrong password")]⟩
        "login" "POST" (Json.obj []) [] (by decide) (by decide)).1).mpr
      (Or.inr (by decide))⟩

/-- On ASCII code points, Python's `\d` is exactly the digits `0-9`: every
other Nd range lies above U+0660. -/
lemma isPyDigit_of_ascii (c : Char) (h : c.toNat < 128) :
    isPyDigit c = decide (48 ≤ c.toNat ∧ c.toNat ≤ 57) := by
  have key : ∀ n < 128,
      (ndRanges.any (fun r => decide (r.1 ≤ n ∧ n ≤ r.2))) =
        decide (48 ≤ n ∧ n ≤ 57) := by
    decide
  simpa [isPyDigit] using key c.toNat h

/-- C4, counterexample: for the plate `"٣"` (ARABIC-INDIC DIGIT THREE, a
Unicode decimal digit), `update` stores the key `"٣"` — the regex `\d` keeps
it — whereas removing every character outside `[A-Za-z0-9]` would give `""`,
so the stored key differs from the claimed one. -/
theorem plate_key_ne_ascii_strip :
    extractLicensePlate (Json.obj [("Value", Json.str "٣"), ("Name", Json.str "X")]) =
      some (reSubNonAlnum "٣", Json.str "X") ∧
    reSubNonAlnum "٣" = "٣" ∧
    asciiAlnumStrip "٣" = "" ∧
    reSubNonAlnum "٣" ≠ asciiAlnumStrip "٣" := by
  refine ⟨rfl, by decide, by decide, by decide⟩

/-- C4, amended: the stored key is the input with every character kept only if
it is an ASCII letter or a Unicode decimal digit (Python's `\d`); for inputs
made of ASCII characters this equals the input with every character outside
`[A-Za-z0-9]` removed. -/
theorem plate_key_eq_ascii_strip (s : String)
    (h : ∀ ch ∈ s.data, ch.toNat < 128) :
    (∀ name : Json,
      extractLicensePlate (Json.obj [("Value", Json.str s), ("Name", name)]) =
        some (reSubNonAlnum s, name)) ∧
    reSubNonAlnum s = asciiAlnumStrip s := by
  refine ⟨fun name => rfl, ?_⟩
  unfold reSubNonAlnum asciiAlnumStrip
  congr 1
  apply List.filter_congr
  intro c hc
  rw [isPyDigit_of_ascii c (h c hc)]

theorem plate_key_eq_ascii_strip_witness :
    (∀ ch ∈ ("AB-123-C" : String).data, ch.toNat < 128) ∧
    reSubNonAlnum "AB-123-C" = asciiAlnumStrip "AB-123-C" ∧
    reSubNonAlnum "AB-123-C" = "AB123C" :=
  ⟨by decide, (plate_key_eq_ascii_strip "AB-123-C" (by decide)).2, by decide⟩

/-- `_request` always issues exactly the one request it builds, whatever the
transport outcome. -/
lemma request_issues_one (c : DVSPortal) (transport : Transport)
    (uri method : String) (body : Json) (headers : List (String × String)) :
    (c._request transport uri method body headers).2 =
      [Request.mk uri method body
        (mergeHeaders [("User-Agent", c.user_agent)] headers)] := by
  unfold DVSPortal._request
  dsimp only
  rcases htr : transport _ with _ | _ | r
  · rfl
  · rfl
  · dsimp only
    split
    · rfl
    · split <;> rfl

/-- For a delivered JSON response that is neither 4xx/5xx nor carrying
`ErrorMessage`, `_request` returns the parsed body and the one request. -/
lemma request_ok_of_good (c : DVSPortal) (transport : Transport)
    (uri method : String) (body : Json) (headers : List (String × String))
    (r : HttpResponse)
    (htr : transport (Request.mk uri method body
      (mergeHeaders [("User-Agent", c.user_agent)] headers)) = .response r)
    (hct : pyStartsWith r.contentType "application/json" = true)
    (hgood : ¬ ((400 ≤ r.status ∧ r.status ≤ 599) ∨ r.json.hasErrorMessage = true)) :
    c._request transport uri method body headers =
      (.ok r.json, [Request.mk uri method body
        (mergeHeaders [("User-Agent", c.user_agent)] headers)]) := by
  have hP : ¬ ((r.status / 100 = 4 ∨ r.status / 100 = 5) ∨
      r.json.hasErrorMessage = true) := by
    intro hbad
    apply hgood
    rcases hbad with (h4 | h4) | h4
    · left; omega
    · left; omega
    · right; exact h4
  unfold DVSPortal._request
  dsimp only
  rw [htr]
  simp [hct, hP]

/-- C5: with no cached token, `token()` issues exactly one `login` request
with the documented body; on failure the client state (hence the absent
token) is unchanged; on a good JSON response it caches and returns the
`Token` field; with a cached token it returns it and issues no request. -/
theorem token_login_flow (c : DVSPortal) (transport : Transport)
    (h : c.tokenVal = none) :
    (c.token transport).2.2 = [loginRequest c] ∧
    (loginRequest c).uri = "login" ∧
    (loginRequest c).method = "POST" ∧
    (loginRequest c).json =
      Json.obj [("identifier", Json.str c.identifier),
                ("loginMethod", Json.str "Pas"),
                ("password", Json.str c.password),
                ("permitMediaTypeID", Json.num 1)] ∧
    (∀ e, (c.token transport).1 = .error e → (c.token transport).2.1 = c) ∧
    (∀ r, transport (loginRequest c) = .response r →
      pyStartsWith r.contentType "application/json" = true →
      ¬ ((400 ≤ r.status ∧ r.status ≤ 599) ∨ r.json.hasErrorMessage = true) →
      ∀ t, r.json.get "Token" = some t →
        c.token transport = (.ok t, { c with tokenVal := some t }, [loginRequest c])) ∧
    (∀ (c' : DVSPortal) (t : Json), c'.tokenVal = some t →
      c'.token transport = (.ok t, c', [])) := by
  have hreqs : (c._request transport "login" "POST" (loginBody c) []).2 =
      [loginRequest c] :=
    request_issues_one c transport "login" "POST" (loginBody c) []
  refine ⟨?_, rfl, rfl, rfl, ?_, ?_, ?_⟩
  · simp only [DVSPortal.token, h]
    rcases hres : (c._request transport "login" "POST" (loginBody c) []).1 with e | response
    · simpa using hreqs
    · rcases hg : response.get "Token" with _ | t <;> simpa [hg] using hreqs
  · intro e he
    simp only [DVSPortal.token, h] at he ⊢
    rcases hres : (c._request transport "login" "POST" (loginBody c) []).1 with e' | response
    · rfl
    · rw [hres] at he
      rcases hg : response.get "Token" with _ | t <;> simp [hg] at he ⊢
  · intro r htr hct hgood t hget
    have hok := request_ok_of_good c transport "login" "POST" (loginBody c) [] r
      (by simpa [loginRequest] using htr) hct hgood
    simp only [DVSPortal.token, h, hok]
    simp [hget, loginRequest]
  · intro c' t h'
    simp [DVSPortal.token, h']

theorem token_login_flow_witness :
    (DVSPortal.init "host" "id" "pw").tokenVal = none ∧
    (DVSPortal.init "host" "id" "pw").token
        (fun _ => .response ⟨200, "application/json", "",
          Json.obj [("Token", Json.str "abc")]⟩) =
      (.ok (Json.str "abc"),
        { DVSPortal.init "host" "id" "pw" with tokenVal := some (Json.str "abc") },
        [loginRequest (DVSPortal.init "host" "id" "pw")]) :=
  ⟨rfl,
    (token_login_flow (DVSPortal.init "host" "id" "pw")
        (fun _ => .response ⟨200, "application/json", "",
          Json.obj [("Token", Json.str "abc")]⟩) rfl).2.2.2.2.2.1
      ⟨200, "application/json", "", Json.obj [("Token", Json.str "abc")]⟩
      rfl (by decide) (by decide) (Json.str "abc") rfl⟩

/-- C7: `authorization_header()` yields exactly
`{"Authorization": "Token " + base64(token)}` from the cached token, fetching
one via `login` first when absent. -/
theorem authorization_header_from_token (c : DVSPortal) (transport : Transport) :
    (∀ t : String, c.tokenVal = some (Json.str t) →
      c.authorization_header transport =
        (.ok [("Authorization", "Token " ++ b64OfString t)], c, [])) ∧
    (c.tokenVal = none →
      ∀ r, transport (loginRequest c) = .response r →
        pyStartsWith r.contentType "application/json" = true →
        ¬ ((400 ≤ r.status ∧ r.status ≤ 599) ∨ r.json.hasErrorMessage = true) →
        ∀ t : String, r.json.get "Token" = some (Json.str t) →
          (c.authorization_header transport).1 =
            .ok [("Authorization", "Token " ++ b64OfString t)]) := by
  constructor
  · intro t ht
    simp [DVSPortal.authorization_header, DVSPortal.token, ht, authHeaderValue]
  · intro h r htr hct hgood t hget
    have hok := request_ok_of_good c transport "login" "POST" (loginBody c) [] r
      (by simpa [loginRequest] using htr) hct hgood
    simp [DVSPortal.authorization_header, DVSPortal.token, h, hok, hget,
      authHeaderValue]

theorem authorization_header_from_token_witness :
    ({ DVSPortal.init "host" "id" "pw" with
        tokenVal := some (Json.str "abc") } : DVSPortal).authorization_header
        (fun _ => .clientError) =
      (.ok [("Authorization", "Token YWJj")],
        { DVSPortal.init "host" "id" "pw" with tokenVal := some (Json.str "abc") },
        []) :=
  (authorization_header_from_token
    { DVSPortal.init "host" "id" "pw" with tokenVal := some (Json.str "abc") }
    (fun _ => .clientError)).1 "abc" rfl

/-- With a cached string token, `authorization_header` is a pure read. -/
lemma authorization_header_cached (c : DVSPortal) (transport : Transport)
    (t : String) (h : c.tokenVal = some (Json.str t)) :
    c.authorization_header transport =
      (.ok [("Authorization", authHeaderValue t)], c, []) := by
  simp [DVSPortal.authorization_header, DVSPortal.token, h]

/-- Full characterization of a successful `update` with a cached token: the
new snapshot is the normalization of the delivered response, whatever
`c.permitsVal` held before. -/
lemma update_ok (c : DVSPortal) (transport : Transport) (t : String)
    (h : c.tokenVal = some (Json.str t)) (r : HttpResponse) (ps : List Permit)
    (htr : transport (getbaseRequest c t) = .response r)
    (hct : pyStartsWith r.contentType "application/json" = true)
    (hgood : ¬ ((400 ≤ r.status ∧ r.status ≤ 599) ∨ r.json.hasErrorMessage = true))
    (hnorm : normalizeResponse r.json = some ps) :
    c.update transport =
      (.ok (), { c with permitsVal := some ps }, [getbaseRequest c t]) := by
  have hauth := authorization_header_cached c transport t h
  have hreq := request_ok_of_good c transport "login/getbase" "POST" (Json.obj [])
    [("Authorization", authHeaderValue t)] r
    (by simpa [getbaseRequest] using htr) hct hgood
  simp [DVSPortal.update, DVSPortal.token, h, hauth, hreq, hnorm, getbaseRequest]

/-- C3: a successful `update` replaces the snapshot with the normalization of
the delivered response alone — the equation holds for every prior
`permitsVal` — so a second `update` leaves only the second response's
normalization; and the spec's example response normalizes to exactly one
Permit with `license_plates = {"AB12CD": "Car"}`. -/
theorem update_replaces_snapshot (c : DVSPortal) (transport : Transport)
    (t : String) (h : c.tokenVal = some (Json.str t))
    (r : HttpResponse) (ps : List Permit)
    (htr : transport (getbaseRequest c t) = .response r)
    (hct : pyStartsWith r.contentType "application/json" = true)
    (hgood : ¬ ((400 ≤ r.status ∧ r.status ≤ 599) ∨ r.json.hasErrorMessage = true))
    (hnorm : normalizeResponse r.json = some ps) :
    c.update transport =
      (.ok (), { c with permitsVal := some ps }, [getbaseRequest c t]) ∧
    (∀ (transport2 : Transport) r2 ps2,
      transport2 (getbaseRequest c t) = .response r2 →
      pyStartsWith r2.contentType "application/json" = true →
      ¬ ((400 ≤ r2.status ∧ r2.status ≤ 599) ∨ r2.json.hasErrorMessage = true) →
      normalizeResponse r2.json = some ps2 →
      ((c.update transport).2.1.update transport2).2.1.permitsVal = some ps2) ∧
    normalizeResponse exampleGetbase =
      some [{ type_id := Json.num 2, code := Json.str "C1",
              zone_code := Json.str "Z1",
              license_plates := [("AB12CD", Json.str "Car")],
              reservations := [] }] := by
  have h1 := update_ok c transport t h r ps htr hct hgood hnorm
  refine ⟨h1, ?_, rfl⟩
  intro transport2 r2 ps2 htr2 hct2 hgood2 hnorm2
  rw [h1]
  have h2 := update_ok { c with permitsVal := some ps } transport2 t h r2 ps2
    htr2 hct2 hgood2 hnorm2
  rw [h2]

theorem update_replaces_snapshot_witness :
    ({ DVSPortal.init "host" "id" "pw" with
        tokenVal := some (Json.str "abc") } : DVSPortal).update
        (fun _ => .response ⟨200, "application/json", "", exampleGetbase⟩) =
      (.ok (),
        { DVSPortal.init "host" "id" "pw" with
            tokenVal := some (Json.str "abc"),
            permitsVal := some [{ type_id := Json.num 2, code := Json.str "C1",
                                  zone_code := Json.str "Z1",
                                  license_plates := [("AB12CD", Json.str "Car")],
                                  reservations := [] }] },
        [getbaseRequest { DVSPortal.init "host" "id" "pw" with
            tokenVal := some (Json.str "abc") } "abc"]) :=
  (update_replaces_snapshot
    { DVSPortal.init "host" "id" "pw" with tokenVal := some (Json.str "abc") }
    (fun _ => .response ⟨200, "application/json", "", exampleGetbase⟩)
    "abc" rfl ⟨200, "application/json", "", exampleGetbase⟩
    [{ type_id := Json.num 2, code := Json.str "C1", zone_code := Json.str "Z1",
       license_plates := [("AB12CD", Json.str "Car")], reservations := [] }]
    rfl (by decide) (by decide) rfl).1

/-- C6: `update` issues (exactly) the `login/getbase` fetch as a POST whose
body is the default empty JSON object — the caller passes no payload — and
whose headers carry the authorization header for the cached token. -/
theorem update_sends_getbase (c : DVSPortal) (transport : Transport) (t : String)
    (h : c.tokenVal = some (Json.str t)) :
    (c.update transport).2.2 = [getbaseRequest c t] ∧
    (getbaseRequest c t).uri = "login/getbase" ∧
    (getbaseRequest c t).method = "POST" ∧
    (getbaseRequest c t).json = Json.obj [] ∧
    headerValue (getbaseRequest c t).headers "Authorization" =
      some ("Token " ++ b64OfString t) := by
  refine ⟨?_, rfl, rfl, rfl, rfl⟩
  have hauth := authorization_header_cached c transport t h
  have hreqs := request_issues_one c transport "login/getbase" "POST" (Json.obj [])
    [("Authorization", authHeaderValue t)]
  simp only [DVSPortal.update, DVSPortal.token, h, hauth]
  rcases hres : (c._request transport "login/getbase" "POST" (Json.obj [])
      [("Authorization", authHeaderValue t)]).1 with e | response
  · simpa [getbaseRequest] using hreqs
  · rcases hn : normalizeResponse response with _ | ps <;>
      simpa [hn, getbaseRequest] using hreqs

theorem update_sends_getbase_witness :
    (({ DVSPortal.init "host" "id" "pw" with
        tokenVal := some (Json.str "abc") } : DVSPortal).update
        (fun _ => .clientError)).2.2 =
      [getbaseRequest { DVSPortal.init "host" "id" "pw" with
          tokenVal := some (Json.str "abc") } "abc"] ∧
    headerValue (getbaseRequest { DVSPortal.init "host" "id" "pw" with
        tokenVal := some (Json.str "abc") } "abc").headers "Authorization" =
      some "Token YWJj" :=
  ⟨(update_sends_getbase
      { DVSPortal.init "host" "id" "pw" with tokenVal := some (Json.str "abc") }
      (fun _ => .clientError) "abc" rfl).1,
    (update_sends_getbase
      { DVSPortal.init "host" "id" "pw" with tokenVal := some (Json.str "abc") }
      (fun _ => .clientError) "abc" rfl).2.2.2.2⟩

/-- C8: `permits()` never issues a request and returns exactly the cached
snapshot; on a fresh client the `_permits` attribute is absent, so the call
fails rather than returning data; after a successful `update` it returns the
snapshot that update stored. -/
theorem permits_returns_snapshot (c : DVSPortal) (transport : Transport) :
    (c.permits).2 = [] ∧
    (∀ ps, c.permitsVal = some ps → c.permits = (.ok ps, [])) ∧
    (c.permitsVal = none →
      c.permits = (.error (.pyError "AttributeError: _permits"), [])) ∧
    (DVSPortal.init c.api_host c.identifier c.password).permitsVal = none ∧
    (∀ t : String, c.tokenVal = some (Json.str t) →
      ∀ (r : HttpResponse) (ps : List Permit),
        transport (getbaseRequest c t) = .response r →
        pyStartsWith r.contentType "application/json" = true →
        ¬ ((400 ≤ r.status ∧ r.status ≤ 599) ∨ r.json.hasErrorMessage = true) →
        normalizeResponse r.json = some ps →
        ((c.update transport).2.1).permits = (.ok ps, [])) := by
  refine ⟨?_, ?_, ?_, rfl, ?_⟩
  · rcases hp : c.permitsVal with _ | ps <;> simp [DVSPortal.permits, hp]
  · intro ps hp
    simp [DVSPortal.permits, hp]
  · intro hp
    simp [DVSPortal.permits, hp]
  · intro t h r ps htr hct hgood hnorm
    rw [update_ok c transport t h r ps htr hct hgood hnorm]
    simp [DVSPortal.permits]

theorem permits_returns_snapshot_witness :
    (DVSPortal.init "host" "id" "pw").permitsVal = none ∧
    (DVSPortal.init "host" "id" "pw").permits =
      (.error (.pyError "AttributeError: _permits"), []) :=
  ⟨rfl,
    (permits_returns_snapshot (DVSPortal.init "host" "id" "pw")
      (fun _ => .clientError)).2.2.1 rfl⟩

/-- C9: `close()` touches the session only when the client created it: an
owning client's session is released exactly once even across two `close()`
calls, and a client with an externally supplied session never closes it. -/
theorem close_releases_iff_owned (api_host identifier password : String)
    (request_timeout : Nat) (ua : Option String) (s : Session) :
    ((DVSPortal.init api_host identifier password request_timeout none ua).close).session =
      Session.mk true 1 ∧
    ((DVSPortal.init api_host identifier password request_timeout none ua).close.close).session =
      Session.mk true 1 ∧
    ((DVSPortal.init api_host identifier password request_timeout (some s) ua).close =
      DVSPortal.init api_host identifier password request_timeout (some s) ua) ∧
    (∀ c : DVSPortal, c.close_session = false → c.close = c) ∧
    (∀ c : DVSPortal, c.close_session = true → c.close.session = c.session.close) := by
  refine ⟨rfl, rfl, rfl, ?_, ?_⟩
  · intro c hc
    simp [DVSPortal.close, hc]
  · intro c hc
    simp [DVSPortal.close, hc]

theorem close_releases_iff_owned_witness :
    ((DVSPortal.init "host" "id" "pw" 10 (some (Session.mk false 0)) none).close_session
      = false) ∧
    ((DVSPortal.init "host" "id" "pw" 10 (some (Session.mk false 0)) none).close =
      DVSPortal.init "host" "id" "pw" 10 (some (Session.mk false 0)) none) :=
  ⟨rfl,
    (close_releases_iff_owned "host" "id" "pw" 10 none (Session.mk false 0)).2.2.2.1
      (DVSPortal.init "host" "id" "pw" 10 (some (Session.mk false 0)) none) rfl⟩

/-- C10: with a cached token and snapshot, `end_reservation` and
`create_reservation` leave the whole client state unchanged — on success and
on failure — and return the raw `_request` outcome for their endpoint. -/
theorem reservation_commands_preserve_state (c : DVSPortal) (transport : Transport)
    (t : String) (h : c.tokenVal = some (Json.str t))
    (ps : List Permit) (_hp : c.permitsVal = some ps)
    (type_id code reservation_id license_plate_value license_plate_name : Json)
    (now : String) :
    (c.end_reservation transport type_id code reservation_id).2.1 = c ∧
    (c.create_reservation transport now license_plate_value license_plate_name
        type_id code).2.1 = c ∧
    (c.end_reservation transport type_id code reservation_id).1 =
      (c._request transport "reservation/end" "POST"
        (Json.obj [("ReservationID", reservation_id),
                   ("permitMediaTypeID", type_id),
                   ("permitMediaCode", code)])
        [("Authorization", authHeaderValue t)]).1 ∧
    (c.create_reservation transport now license_plate_value license_plate_name
        type_id code).1 =
      (c._request transport "reservation/create" "POST"
        (Json.obj [("DateFrom", Json.str now),
                   ("LicensePlate",
                     Json.obj [("Value", license_plate_value),
                               ("Name", license_plate_name)]),
                   ("permitMediaTypeID", type_id),
                   ("permitMediaCode", code)])
        [("Authorization", authHeaderValue t)]).1 := by
  have hauth := authorization_header_cached c transport t h
  refine ⟨?_, ?_, ?_, ?_⟩ <;>
    simp [DVSPortal.end_reservation, DVSPortal.create_reservation, hauth]

theorem reservation_commands_preserve_state_witness :
    (({ DVSPortal.init "host" "id" "pw" with
        tokenVal := some (Json.str "abc"),
        permitsVal := some [] } : DVSPortal).end_reservation
        (fun _ => .clientError) Json.null Json.null Json.null).2.1 =
      { DVSPortal.init "host" "id" "pw" with
          tokenVal := some (Json.str "abc"), permitsVal := some [] } ∧
    (({ DVSPortal.init "host" "id" "pw" with
        tokenVal := some (Json.str "abc"),
        permitsVal := some [] } : DVSPortal).create_reservation
        (fun _ => .clientError) "2024-01-01T00:00:00"
        Json.null Json.null Json.null Json.null).2.1 =
      { DVSPortal.init "host" "id" "pw" with
          tokenVal := some (Json.str "abc"), permitsVal := some [] } :=
  ⟨(reservation_commands_preserve_state
      { DVSPortal.init "host" "id" "pw" with
          tokenVal := some (Json.str "abc"), permitsVal := some [] }
      (fun _ => .clientError) "abc" rfl [] rfl
      Json.null Json.null Json.null Json.null Json.null
      "2024-01-01T00:00:00").1,
    (reservation_commands_preserve_state
      { DVSPortal.init "host" "id" "pw" with
          tokenVal := some (Json.str "abc"), permitsVal := some [] }
      (fun _ => .clientError) "abc" rfl [] rfl
      Json.null Json.null Json.null Json.null Json.null
      "2024-01-01T00:00:00").2.1⟩
